import Mathlib

/-!
Verification development for the uniform-grid diagnostics of the
mjg-intel-fluid-demo repository (files `Space/uniformGridDiagnostics.cpp`,
`Sim/Vorton/vortonGridDiagnostics.cpp`).

Floating-point values are modelled by exact rationals: the quantization
pipeline consists of subtractions, divisions, one multiplication by the
constant `256 * (1 - FLT_EPSILON)` and a truncating cast, all of which are
faithfully mirrored over `ℚ` with the IEEE single-precision constants
`FLT_EPSILON = 2⁻²³`, `FLT_MIN = 2⁻¹²⁶`, `FLT_MAX = (2²⁴ - 1) · 2¹⁰⁴`
taken as exact rational numbers.  Grid contents are lists of values in
flat offset order (X fastest, then Y, then Z), which is exactly the order
every loop in the source traverses.
-/

/-- Model of the C constant `FLT_EPSILON` (2⁻²³), used in
`fAlmost256 = 256.0f * ( 1.0f - FLT_EPSILON )`. -/
def fltEpsilon : ℚ := 1 / 2 ^ 23

/-- Model of the C constant `FLT_MIN` (2⁻¹²⁶), the divide-by-zero floor used
in `MAX2( fMax - fMin , FLT_MIN )`. -/
def fltMin : ℚ := 1 / 2 ^ 126

/-- Model of the C constant `FLT_MAX` ((2²⁴-1)·2¹⁰⁴), the start value of the
min/max statistics folds. -/
def fltMax : ℚ := (2 ^ 24 - 1) * 2 ^ 104

/-- Model of the static constant `fAlmost256 = 256.0f * ( 1.0f - FLT_EPSILON )`
shared by all three GenerateBrickOfBytes variants. -/
def fAlmost256 : ℚ := 256 * (1 - fltEpsilon)

/-- Model of the C cast from a floating value to `int`: truncation toward
zero (floor for nonnegative arguments, ceiling for negative ones). -/
def truncQ (q : ℚ) : ℤ := if 0 ≤ q then ⌊q⌋ else ⌈q⌉

/-- The intermediate value `f0to1 = fShifted / fRange` of
`UniformGrid<float>::GenerateBrickOfBytes` (uniformGridDiagnostics.cpp
lines 87-89), with the divisor range floored at `FLT_MIN` as in line 58:
`fRange = MAX2( fMax - fMin , FLT_MIN )`. -/
def normalized (fMin fMax v : ℚ) : ℚ := (v - fMin) / max (fMax - fMin) fltMin

/-- The quantized byte value produced per grid point by
`UniformGrid<float>::GenerateBrickOfBytes` (uniformGridDiagnostics.cpp
lines 86-94): shift by `fMin`, divide by the floored range, scale by
`fAlmost256`, truncate to `int`. -/
def quantizeByte (fMin fMax v : ℚ) : ℤ := truncQ (normalized fMin fMax v * fAlmost256)

lemma fltMin_pos : 0 < fltMin := by norm_num [fltMin]

lemma range_pos (fMin fMax : ℚ) : 0 < max (fMax - fMin) fltMin :=
  lt_of_lt_of_le fltMin_pos (le_max_right _ _)

lemma fAlmost256_pos : 0 < fAlmost256 := by norm_num [fAlmost256, fltEpsilon]

lemma fAlmost256_lt_256 : fAlmost256 < 256 := by norm_num [fAlmost256, fltEpsilon]

lemma truncQ_of_nonneg {q : ℚ} (h : 0 ≤ q) : truncQ q = ⌊q⌋ := if_pos h

lemma normalized_nonneg {fMin fMax v : ℚ} (h : fMin ≤ v) : 0 ≤ normalized fMin fMax v :=
  div_nonneg (sub_nonneg.2 h) (range_pos fMin fMax).le

lemma normalized_le_one {fMin fMax v : ℚ} (h : v ≤ fMax) : normalized fMin fMax v ≤ 1 := by
  apply (div_le_one (range_pos fMin fMax)).2
  exact le_trans (by linarith) (le_max_left _ _)

lemma quantizeByte_nonneg {fMin fMax v : ℚ} (h : fMin ≤ v) : 0 ≤ quantizeByte fMin fMax v := by
  have hq : 0 ≤ normalized fMin fMax v * fAlmost256 :=
    mul_nonneg (normalized_nonneg h) fAlmost256_pos.le
  rw [quantizeByte, truncQ_of_nonneg hq]
  exact Int.floor_nonneg.2 hq

lemma quantizeByte_le_255 {fMin fMax v : ℚ} (h1 : fMin ≤ v) (h2 : v ≤ fMax) :
    quantizeByte fMin fMax v ≤ 255 := by
  have hq : 0 ≤ normalized fMin fMax v * fAlmost256 :=
    mul_nonneg (normalized_nonneg h1) fAlmost256_pos.le
  rw [quantizeByte, truncQ_of_nonneg hq]
  have hlt : normalized fMin fMax v * fAlmost256 < 256 := by
    calc normalized fMin fMax v * fAlmost256 ≤ 1 * fAlmost256 := by
          exact mul_le_mul_of_nonneg_right (normalized_le_one h2) fAlmost256_pos.le
      _ = fAlmost256 := one_mul _
      _ < 256 := fAlmost256_lt_256
  have : ⌊normalized fMin fMax v * fAlmost256⌋ < (256 : ℤ) := Int.floor_lt.2 (by exact_mod_cast hlt)
  omega

lemma quantizeByte_at_min (fMin fMax : ℚ) : quantizeByte fMin fMax fMin = 0 := by
  simp [quantizeByte, normalized, truncQ]

lemma quantizeByte_at_max {fMin fMax : ℚ} (h : fltMin ≤ fMax - fMin) :
    quantizeByte fMin fMax fMax = 255 := by
  have hne : fMax - fMin ≠ 0 := by
    have := fltMin_pos; intro hc; rw [hc] at h; linarith
  have hmax : max (fMax - fMin) fltMin = fMax - fMin := max_eq_left h
  have hn : normalized fMin fMax fMax = 1 := by
    rw [normalized, hmax, div_self hne]
  rw [quantizeByte, hn, one_mul]
  rw [truncQ_of_nonneg fAlmost256_pos.le]
  norm_num [fAlmost256, fltEpsilon]

/-- Model of the 3-component vector type `Vec3` (fields `x`, `y`, `z`),
components as exact rationals. -/
structure Vec3Q where
  x : ℚ
  y : ℚ
  z : ℚ
deriving DecidableEq

/-- Model of the particle record `Vorton` restricted to the two fields the
diagnostics read: `mPosition` and `mVorticity`. -/
structure VortonQ where
  mPosition : Vec3Q
  mVorticity : Vec3Q
deriving DecidableEq

/-- Componentwise negation, as in the C expression `vMin = - vMax`. -/
def Vec3Q.neg (v : Vec3Q) : Vec3Q := ⟨-v.x, -v.y, -v.z⟩

/-- Model of `sqrtf` on exact rationals: exact on rationals that are squares
of rationals (the only points at which any theorem below evaluates it), an
underapproximation elsewhere, and 0 on nonpositive input.  Since
`sqrt(n/d) = sqrt(n*d)/d`, the value is `Nat.sqrt (n*d) / d`. -/
def ratSqrt (q : ℚ) : ℚ :=
  if q ≤ 0 then 0 else (Nat.sqrt (q.num.toNat * q.den) : ℚ) / (q.den : ℚ)

/-- Model of `Vec3::Magnitude`, the Euclidean norm. -/
def Vec3Q.mag (v : Vec3Q) : ℚ := ratSqrt (v.x ^ 2 + v.y ^ 2 + v.z ^ 2)

/-- One iteration of the statistics loop of
`UniformGrid<Vec3>::ComputeStatistics` (uniformGridDiagnostics.cpp
lines 296-302): fold the current value into the componentwise
minimum/maximum accumulator. -/
def vec3StatsStep (mm : Vec3Q × Vec3Q) (v : Vec3Q) : Vec3Q × Vec3Q :=
  (⟨min mm.1.x v.x, min mm.1.y v.y, min mm.1.z v.z⟩,
   ⟨max mm.2.x v.x, max mm.2.y v.y, max mm.2.z v.z⟩)

/-- Model of `UniformGrid<Vec3>::ComputeStatistics` (uniformGridDiagnostics.cpp
lines 278-306): starting from `min = (FLT_MAX,FLT_MAX,FLT_MAX)` and
`max = -min`, fold every stored element once, in flat offset order (the
triple loop of the source enumerates exactly the offsets
`ix + nx*(iy + ny*iz)` in increasing order, as its own assertion at line 295
records). -/
def vec3Stats (l : List Vec3Q) : Vec3Q × Vec3Q :=
  l.foldl vec3StatsStep (⟨fltMax, fltMax, fltMax⟩, ⟨-fltMax, -fltMax, -fltMax⟩)

/-- One iteration of the statistics loop of
`UniformGrid<Vorton>::ComputeStatistics` (vortonGridDiagnostics.cpp
lines 25-39): fold position and vorticity of the current vorton into the
componentwise minimum/maximum accumulator. -/
def vortonStatsStep (mm : VortonQ × VortonQ) (w : VortonQ) : VortonQ × VortonQ :=
  (⟨⟨min mm.1.mPosition.x w.mPosition.x, min mm.1.mPosition.y w.mPosition.y,
     min mm.1.mPosition.z w.mPosition.z⟩,
    ⟨min mm.1.mVorticity.x w.mVorticity.x, min mm.1.mVorticity.y w.mVorticity.y,
     min mm.1.mVorticity.z w.mVorticity.z⟩⟩,
   ⟨⟨max mm.2.mPosition.x w.mPosition.x, max mm.2.mPosition.y w.mPosition.y,
     max mm.2.mPosition.z w.mPosition.z⟩,
    ⟨max mm.2.mVorticity.x w.mVorticity.x, max mm.2.mVorticity.y w.mVorticity.y,
     max mm.2.mVorticity.z w.mVorticity.z⟩⟩)

/-- Model of `UniformGrid<Vorton>::ComputeStatistics` (vortonGridDiagnostics.cpp
lines 17-41): starting from `min = Vorton(vMax, vMax)`, `max = Vorton(-vMax, -vMax)`
with `vMax = (FLT_MAX,FLT_MAX,FLT_MAX)`, fold every stored vorton once in flat
offset order. -/
def vortonStats (l : List VortonQ) : VortonQ × VortonQ :=
  l.foldl vortonStatsStep
    (⟨⟨fltMax, fltMax, fltMax⟩, ⟨fltMax, fltMax, fltMax⟩⟩,
     ⟨⟨-fltMax, -fltMax, -fltMax⟩, ⟨-fltMax, -fltMax, -fltMax⟩⟩)

lemma vec3StatsStep_rightComm (z : Vec3Q × Vec3Q) (a b : Vec3Q) :
    vec3StatsStep (vec3StatsStep z a) b = vec3StatsStep (vec3StatsStep z b) a := by
  simp only [vec3StatsStep, Prod.mk.injEq, Vec3Q.mk.injEq]
  constructor
  · exact ⟨min_right_comm _ _ _, min_right_comm _ _ _, min_right_comm _ _ _⟩
  · exact ⟨Max.right_comm _ _ _, Max.right_comm _ _ _, Max.right_comm _ _ _⟩

lemma vec3Stats_perm {l l' : List Vec3Q} (h : l.Perm l') : vec3Stats l = vec3Stats l' :=
  h.foldl_eq' (fun a _ b _ z => vec3StatsStep_rightComm z a b) _

/-- Folding a product of two independent accumulators splits into the two
component folds. -/
lemma foldl_prod_split {α β γ : Type} (f : α → γ → α) (g : β → γ → β) :
    ∀ (l : List γ) (a : α) (b : β),
      l.foldl (fun p c => (f p.1 c, g p.2 c)) (a, b) = (l.foldl f a, l.foldl g b) := by
  intro l
  induction l with
  | nil => intro a b; rfl
  | cons c t ih => intro a b; simpa using ih (f a c) (g b c)

/-- The vorton statistics fold acts on `mPosition` and `mVorticity`
independently: it is the pair of the two `Vec3` folds over the projected
lists. -/
lemma vortonFold_split : ∀ (l : List VortonQ) (mn mx : VortonQ),
    l.foldl vortonStatsStep (mn, mx) =
      (⟨((l.map VortonQ.mPosition).foldl vec3StatsStep (mn.mPosition, mx.mPosition)).1,
        ((l.map VortonQ.mVorticity).foldl vec3StatsStep (mn.mVorticity, mx.mVorticity)).1⟩,
       ⟨((l.map VortonQ.mPosition).foldl vec3StatsStep (mn.mPosition, mx.mPosition)).2,
        ((l.map VortonQ.mVorticity).foldl vec3StatsStep (mn.mVorticity, mx.mVorticity)).2⟩) := by
  intro l
  induction l with
  | nil => intro mn mx; rfl
  | cons w t ih =>
      intro mn mx
      simp only [List.map_cons, List.foldl_cons]
      rw [ih]
      rfl

/-- The `Vec3` statistics fold acts on the six scalar accumulators
independently. -/
lemma vec3Fold_components : ∀ (l : List Vec3Q) (mn mx : Vec3Q),
    l.foldl vec3StatsStep (mn, mx) =
      (⟨l.foldl (fun m v => min m v.x) mn.x,
        l.foldl (fun m v => min m v.y) mn.y,
        l.foldl (fun m v => min m v.z) mn.z⟩,
       ⟨l.foldl (fun m v => max m v.x) mx.x,
        l.foldl (fun m v => max m v.y) mx.y,
        l.foldl (fun m v => max m v.z) mx.z⟩) := by
  intro l
  induction l with
  | nil => intro mn mx; rfl
  | cons v t ih =>
      intro mn mx
      simp only [List.foldl_cons]
      rw [ih]
      rfl

lemma vortonStats_split (l : List VortonQ) :
    vortonStats l =
      (⟨(vec3Stats (l.map VortonQ.mPosition)).1, (vec3Stats (l.map VortonQ.mVorticity)).1⟩,
       ⟨(vec3Stats (l.map VortonQ.mPosition)).2, (vec3Stats (l.map VortonQ.mVorticity)).2⟩) := by
  rw [vortonStats, vortonFold_split]
  rfl

/-- Model of the statistics loop of `UniformGrid<float>::ComputeStatistics`
as invoked at uniformGridDiagnostics.cpp line 52: scalar min/max fold
starting from `(FLT_MAX, -FLT_MAX)` (line 51). -/
def scalarStats (l : List ℚ) : ℚ × ℚ :=
  l.foldl (fun p v => (min p.1 v, max p.2 v)) (fltMax, -fltMax)

/-- Model of printf `%g` formatting restricted to integer-valued arguments
(the only values at which footers are evaluated in the theorems below):
`%g` prints such a value as a plain signed decimal integer without a
decimal point.  Non-integers are rendered as `num/den`, a placeholder the
theorems never rely on. -/
def fmtG (q : ℚ) : String :=
  if q.den = 1 then toString q.num else toString q.num ++ "/" ++ toString q.den

/-- Model of the footer line `fprintf( pDataFile , "MIN %g MAX %g\n" , ... )`
appended after the binary body of each data file (uniformGridDiagnostics.cpp
lines 100 and 447-450, vortonGridDiagnostics.cpp lines 173-176). -/
def mkFooterLine (mn mx : ℚ) : String :=
  "MIN " ++ fmtG mn ++ " MAX " ++ fmtG mx ++ "\x0a"

/-- The encoded (min, max) range of the scalar exporter
(uniformGridDiagnostics.cpp lines 50-57): the raw statistics, replaced by
the symmetric range `(-MAX2(-fMin, fMax), MAX2(-fMin, fMax))` exactly when
the compile-time toggle `ENFORCE_SYMMETRIC_RANGE` is set. -/
def scalarEncodedRange (sym : Bool) (l : List ℚ) : ℚ × ℚ :=
  let s := scalarStats l
  if sym then (-(max (-s.1) s.2), max (-s.1) s.2) else s

/-- A single output data file: the byte body and the footer text line. -/
structure BrickFile where
  bytes : List ℤ
  footer : String
deriving DecidableEq

/-- Model of `UniformGrid<float>::GenerateBrickOfBytes`
(uniformGridDiagnostics.cpp lines 47-105, file content only): one byte per
stored value, produced in flat offset order, followed by the footer line
with the encoded range. -/
def scalarExport (sym : Bool) (l : List ℚ) : BrickFile :=
  let r := scalarEncodedRange sym l
  ⟨l.map (fun v => quantizeByte r.1 r.2 v), mkFooterLine r.1 r.2⟩

/-- The per-component byte computation of
`UniformGrid<Vec3>::GenerateBrickOfBytes` (uniformGridDiagnostics.cpp
lines 409-426) and of the vorton variant (vortonGridDiagnostics.cpp
lines 143-157), with the divisor floored as `MAX2( FLT_MIN , range )`
(lines 369-371 resp. 106-108). -/
def vec3CompByte (mn mx v : ℚ) : ℤ := truncQ ((v - mn) / max fltMin (mx - mn) * fAlmost256)

/-- The vector `vExtreme = ( MAX2(-vMin.x, vMax.x) , ... )` of
uniformGridDiagnostics.cpp line 362 (and `vortExtreme`,
vortonGridDiagnostics.cpp line 101). -/
def vec3Extreme (s : Vec3Q × Vec3Q) : Vec3Q :=
  ⟨max (-s.1.x) s.2.x, max (-s.1.y) s.2.y, max (-s.1.z) s.2.z⟩

/-- The approximate maximum magnitude `fMagMax = vExtreme.Magnitude()`
(uniformGridDiagnostics.cpp line 363): the norm of the componentwise
extreme, used as the divisor of the magnitude channel without any
`FLT_MIN` floor. -/
def vec3MagMax (l : List Vec3Q) : ℚ := (vec3Extreme (vec3Stats l)).mag

/-- The encoded (min, max) range of the Vec3 exporter
(uniformGridDiagnostics.cpp lines 360-367): raw statistics, replaced by
`(-vExtreme, vExtreme)` exactly when `ENFORCE_SYMMETRIC_RANGE` is set. -/
def vec3EncodedRange (sym : Bool) (l : List Vec3Q) : Vec3Q × Vec3Q :=
  let s := vec3Stats l
  if sym then ((vec3Extreme s).neg, vec3Extreme s) else s

/-- The floored per-component divisor `vRange` of the Vec3 exporter
(uniformGridDiagnostics.cpp lines 368-371):
`vRange.c = MAX2( FLT_MIN , vMax.c - vMin.c )`. -/
def vec3RangeFloored (sym : Bool) (l : List Vec3Q) : Vec3Q :=
  let r := vec3EncodedRange sym l
  ⟨max fltMin (r.2.x - r.1.x), max fltMin (r.2.y - r.1.y), max fltMin (r.2.z - r.1.z)⟩

/-- The magnitude-channel byte `fAlmost256 * fMag / fMagMax`
(uniformGridDiagnostics.cpp line 424, vortonGridDiagnostics.cpp line 155)
truncated to `int`.  The divisor `fMagMax` is used as-is; in C, when it is
zero the division `0.0f / 0.0f` yields NaN (rational division by zero
yields 0 here, which is why the unguarded divisor is stated separately). -/
def magByte (fMagMax fMag : ℚ) : ℤ := truncQ (fAlmost256 * fMag / fMagMax)

/-- The four output data files of the vector-valued exporters: X, Y, Z
component bricks plus the magnitude brick. -/
structure BrickSet where
  bytesX : List ℤ
  bytesY : List ℤ
  bytesZ : List ℤ
  bytesM : List ℤ
  footerX : String
  footerY : String
  footerZ : String
  footerM : String
deriving DecidableEq

/-- Model of `UniformGrid<Vec3>::GenerateBrickOfBytes`
(uniformGridDiagnostics.cpp lines 356-457, file content only): four byte
streams in flat offset order plus their footers.  The magnitude footer
records the range `(0, fMagMax)` the source intends at line 450 (its
argument-typing defect is modelled separately below). -/
def vec3Export (sym : Bool) (l : List Vec3Q) : BrickSet :=
  let r := vec3EncodedRange sym l
  let magMax := vec3MagMax l
  ⟨l.map (fun v => vec3CompByte r.1.x r.2.x v.x),
   l.map (fun v => vec3CompByte r.1.y r.2.y v.y),
   l.map (fun v => vec3CompByte r.1.z r.2.z v.z),
   l.map (fun v => magByte magMax v.mag),
   mkFooterLine r.1.x r.2.x, mkFooterLine r.1.y r.2.y, mkFooterLine r.1.z r.2.z,
   mkFooterLine 0 magMax⟩

/-- The vorticity statistics of a vorton grid as the exporter reads them
(vortonGridDiagnostics.cpp lines 97-100: `vortMin = vortonMin.mVorticity`,
`vortMax = vortonMax.mVorticity`). -/
def vortonVortStats (l : List VortonQ) : Vec3Q × Vec3Q :=
  ((vortonStats l).1.mVorticity, (vortonStats l).2.mVorticity)

/-- The encoded vorticity range of `UniformGrid<Vorton>::GenerateBrickOfBytes`
(vortonGridDiagnostics.cpp lines 101-104): `vortMax = vortExtreme ;
vortMin = - vortMax ;` is executed unconditionally — unlike the scalar and
Vec3 exporters, these two assignments are not guarded by
`#if ENFORCE_SYMMETRIC_RANGE`, so the model has no toggle parameter. -/
def vortonEncodedVortRange (l : List VortonQ) : Vec3Q × Vec3Q :=
  (( vec3Extreme (vortonVortStats l)).neg, vec3Extreme (vortonVortStats l))

/-- The magnitude divisor `fVortMagMax = vortExtreme.Magnitude()`
(vortonGridDiagnostics.cpp line 102), again with no `FLT_MIN` floor. -/
def vortonMagMax (l : List VortonQ) : ℚ := (vec3Extreme (vortonVortStats l)).mag

/-- Model of `UniformGrid<Vorton>::GenerateBrickOfBytes`
(vortonGridDiagnostics.cpp lines 94-183, file content only): per stored
vorton, only its `mVorticity` field is read (lines 139-140); the four byte
streams and footers are produced exactly as in the Vec3 exporter but over
the vorticity field, with the symmetric range applied unconditionally. -/
def vortonExport (l : List VortonQ) : BrickSet :=
  let r := vortonEncodedVortRange l
  let magMax := vortonMagMax l
  ⟨l.map (fun w => vec3CompByte r.1.x r.2.x w.mVorticity.x),
   l.map (fun w => vec3CompByte r.1.y r.2.y w.mVorticity.y),
   l.map (fun w => vec3CompByte r.1.z r.2.z w.mVorticity.z),
   l.map (fun w => magByte magMax w.mVorticity.mag),
   mkFooterLine r.1.x r.2.x, mkFooterLine r.1.y r.2.y, mkFooterLine r.1.z r.2.z,
   mkFooterLine 0 magMax⟩

/-- Modelled from the spec: `UniformGrid::OffsetFromIndices` is implemented
in `uniformGrid.h`, which is not among the provided sources; the spec
defines the flattening as `offset = ix + numPoints[0]*(iy + numPoints[1]*iz)`
(row-major, X fastest), which the unit test in uniformGridDiagnostics.cpp
lines 155-173 checks against its own triple loop. -/
def OffsetFromIndices (np idx : ℕ × ℕ × ℕ) : ℕ :=
  idx.1 + np.1 * (idx.2.1 + np.2.1 * idx.2.2)

/-- Modelled from the spec: `UniformGrid::IndicesFromOffset` is implemented
in `uniformGrid.h`, which is not among the provided sources; the spec
states it is the exact inverse of the row-major flattening, i.e.
`ix = off mod nx`, `iy = (off / nx) mod ny`, `iz = off / (nx*ny)`. -/
def IndicesFromOffset (np : ℕ × ℕ × ℕ) (off : ℕ) : ℕ × ℕ × ℕ :=
  (off % np.1, (off / np.1) % np.2.1, off / (np.1 * np.2.1))

/-- Modelled from the spec: the per-axis part of
`UniformGrid::IndicesOfPosition` (implemented in `uniformGrid.h`, not among
the provided sources): `floor((pos - minCorner) / cellSpacing)`, clamped to
`[0, numPoints[axis]-1]`.  `Int.toNat` realises the lower clamp at 0. -/
def idxOfCoord (minC h : ℚ) (n : ℕ) (p : ℚ) : ℕ :=
  min (⌊(p - minC) / h⌋.toNat) (n - 1)

/-- Modelled from the spec: `UniformGrid::IndicesOfPosition` applied on all
three axes. -/
def IndicesOfPosition (minCorner spacing : Vec3Q) (np : ℕ × ℕ × ℕ) (pos : Vec3Q) :
    ℕ × ℕ × ℕ :=
  (idxOfCoord minCorner.x spacing.x np.1 pos.x,
   idxOfCoord minCorner.y spacing.y np.2.1 pos.y,
   idxOfCoord minCorner.z spacing.z np.2.2 pos.z)

/-- Modelled from the spec:
`OffsetOfPosition = OffsetFromIndices(IndicesOfPosition(pos))`. -/
def OffsetOfPosition (minCorner spacing : Vec3Q) (np : ℕ × ℕ × ℕ) (pos : Vec3Q) : ℕ :=
  OffsetFromIndices np (IndicesOfPosition minCorner spacing np pos)

/-- A variadic argument passed to `fprintf`, tagged with its C type:
`intArg` for an `int` argument, `floatArg` for a `float`/`double` argument
(floats are promoted to double through `...`). -/
inductive PrintfArg where
  | intArg : ℤ → PrintfArg
  | floatArg : ℚ → PrintfArg
deriving DecidableEq

/-- Whether an argument has the type the `%g` conversion specifier requires
(a floating-point argument); passing an `int` for `%g` is undefined
behavior in C. -/
def gConvOk : PrintfArg → Bool
  | PrintfArg.intArg _ => false
  | PrintfArg.floatArg _ => true

/-- A `"MIN %g MAX %g"` footer call is well typed when both variadic
arguments are floating-point. -/
def footerArgsWellTyped (args : List PrintfArg) : Bool := args.all gConvOk

/-- The argument list of the X/Y/Z-component footer writes
(uniformGridDiagnostics.cpp lines 447-449, vortonGridDiagnostics.cpp
lines 173-175): both arguments are `float` variables. -/
def componentFooterArgs (mn mx : ℚ) : List PrintfArg :=
  [PrintfArg.floatArg mn, PrintfArg.floatArg mx]

/-- The argument list of the magnitude footer write as it appears in the
source (uniformGridDiagnostics.cpp line 450 and vortonGridDiagnostics.cpp
line 176): `fprintf( ... , "MIN %g MAX %g\n" , 0 , fMagMax )` — the first
argument is the `int` literal `0`, not a floating value. -/
def magnitudeFooterArgs (fMagMax : ℚ) : List PrintfArg :=
  [PrintfArg.intArg 0, PrintfArg.floatArg fMagMax]

/-- Outcome of an export call with respect to file-open failures. -/
inductive ExportOutcome where
  | success : ExportOutcome
  | assertAbort : ExportOutcome
  | undefinedBehavior : ExportOutcome
deriving DecidableEq

/-- Control flow of `UniformGrid<float>::GenerateBrickOfBytes` with respect
to its two `fopen` calls (uniformGridDiagnostics.cpp lines 67-68 and
78-79): each result is null-checked and a failure triggers
`ASSERT( 0 ) ; return ;`. -/
def scalarExportOutcome (scriptOk dataOk : Bool) : ExportOutcome :=
  if scriptOk = false then ExportOutcome.assertAbort
  else if dataOk = false then ExportOutcome.assertAbort
  else ExportOutcome.success

/-- Control flow of `UniformGrid<Vec3>::GenerateBrickOfBytes` with respect
to its five `fopen` calls: the script-file handle from line 383 is used by
`fprintf` at line 385 with no null check, so a failed open is undefined
behavior; the four data-file handles are checked at lines 399-402 with
`ASSERT( 0 ) ; return ;`. -/
def vec3ExportOutcome (scriptOk : Bool) (dataOk : Fin 4 → Bool) : ExportOutcome :=
  if scriptOk = false then ExportOutcome.undefinedBehavior
  else if (dataOk 0 && dataOk 1 && dataOk 2 && dataOk 3) = false then ExportOutcome.assertAbort
  else ExportOutcome.success

/-- Control flow of `UniformGrid<Vorton>::GenerateBrickOfBytes` with respect
to its five `fopen` calls: the script-file handle from line 117 is used by
`fprintf` at line 118 with no null check (undefined behavior on failure);
the four data-file handles are checked at lines 129-132. -/
def vortonExportOutcome (scriptOk : Bool) (dataOk : Fin 4 → Bool) : ExportOutcome :=
  if scriptOk = false then ExportOutcome.undefinedBehavior
  else if (dataOk 0 && dataOk 1 && dataOk 2 && dataOk 3) = false then ExportOutcome.assertAbort
  else ExportOutcome.success

/-- C1: for every valid per-axis index triple, the row-major flattening
`OffsetFromIndices` and `IndicesFromOffset` are exact two-way inverses:
recovering indices from the flattened offset yields the original triple,
and flattening the indices recovered from any offset yields that offset. -/
theorem offset_indices_bijection (nx ny nz ix iy iz off : ℕ)
    (hx : ix < nx) (hy : iy < ny) (hz : iz < nz) :
    IndicesFromOffset (nx, ny, nz) (OffsetFromIndices (nx, ny, nz) (ix, iy, iz)) = (ix, iy, iz)
    ∧ OffsetFromIndices (nx, ny, nz) (IndicesFromOffset (nx, ny, nz) off) = off := by
  have hnx : 0 < nx := lt_of_le_of_lt (Nat.zero_le ix) hx
  have hny : 0 < ny := lt_of_le_of_lt (Nat.zero_le iy) hy
  constructor
  · have hdiv : (ix + nx * (iy + ny * iz)) / nx = iy + ny * iz := by
      rw [Nat.add_mul_div_left _ _ hnx, Nat.div_eq_of_lt hx, Nat.zero_add]
    simp only [OffsetFromIndices, IndicesFromOffset, Prod.mk.injEq]
    refine ⟨?_, ?_, ?_⟩
    · rw [Nat.add_mul_mod_self_left, Nat.mod_eq_of_lt hx]
    · rw [hdiv, Nat.add_mul_mod_self_left, Nat.mod_eq_of_lt hy]
    · rw [← Nat.div_div_eq_div_mul, hdiv, Nat.add_mul_div_left _ _ hny,
        Nat.div_eq_of_lt hy, Nat.zero_add]
  · simp only [OffsetFromIndices, IndicesFromOffset]
    rw [← Nat.div_div_eq_div_mul, Nat.mod_add_div (off / nx) ny, Nat.mod_add_div off nx]

/-- Witness for C1 at the concrete grid 4x5x6, triple (3,2,1), offset 77. -/
theorem offset_indices_bijection_witness :
    IndicesFromOffset (4, 5, 6) (OffsetFromIndices (4, 5, 6) (3, 2, 1)) = (3, 2, 1)
    ∧ OffsetFromIndices (4, 5, 6) (IndicesFromOffset (4, 5, 6) 77) = 77 :=
  offset_indices_bijection 4 5 6 3 2 1 77 (by decide) (by decide) (by decide)

/-- C2 counterexample: when all stored values are identical the statistics
range is `[0, 0]`; the value `0` is at the maximum of the range, yet the
divisor floor `MAX2( fMax - fMin , FLT_MIN )` makes it quantize to byte 0,
not 255 — refuting the unconditional clause that values at the maximum map
to byte 255. -/
theorem quantize_zero_range_max_not_255 :
    quantizeByte 0 0 0 = 0 ∧ quantizeByte 0 0 0 ≠ 255 := by
  constructor
  · exact quantizeByte_at_min 0 0
  · rw [quantizeByte_at_min 0 0]; decide

/-- C2 (amended): for any statistics range and any stored value within
`[min, max]`, the normalized intermediate lies in `[0, 1]` and the produced
byte lies in `[0, 255]`; the minimum always maps to byte 0; and provided the
raw range `max - min` is at least `FLT_MIN` (so the divide-by-zero floor is
inactive), the maximum maps to byte 255, never 256. -/
theorem quantization_bounds (fMin fMax v : ℚ) (h1 : fMin ≤ v) (h2 : v ≤ fMax) :
    (0 ≤ normalized fMin fMax v ∧ normalized fMin fMax v ≤ 1)
    ∧ (0 ≤ quantizeByte fMin fMax v ∧ quantizeByte fMin fMax v ≤ 255)
    ∧ quantizeByte fMin fMax fMin = 0
    ∧ (fltMin ≤ fMax - fMin → quantizeByte fMin fMax fMax = 255) :=
  ⟨⟨normalized_nonneg h1, normalized_le_one h2⟩,
   ⟨quantizeByte_nonneg h1, quantizeByte_le_255 h1 h2⟩,
   quantizeByte_at_min fMin fMax,
   fun h => quantizeByte_at_max h⟩

/-- Witness for C2 (amended) on the range `[0, 63]` at the value 17. -/
theorem quantization_bounds_witness :
    ((0:ℚ) ≤ 17 ∧ (17:ℚ) ≤ 63) ∧
    ((0 ≤ normalized 0 63 17 ∧ normalized 0 63 17 ≤ 1)
    ∧ (0 ≤ quantizeByte 0 63 17 ∧ quantizeByte 0 63 17 ≤ 255)
    ∧ quantizeByte 0 63 0 = 0
    ∧ (fltMin ≤ 63 - 0 → quantizeByte 0 63 63 = 255)) :=
  ⟨⟨by norm_num, by norm_num⟩, quantization_bounds 0 63 17 (by norm_num) (by norm_num)⟩

lemma vec3CompByte_eq_quantizeByte (mn mx v : ℚ) :
    vec3CompByte mn mx v = quantizeByte mn mx v := by
  rw [vec3CompByte, quantizeByte, normalized, max_comm]

/-- C3 counterexample: `UniformGrid<Vorton>::GenerateBrickOfBytes` applies
the symmetric-range replacement unconditionally (vortonGridDiagnostics.cpp
lines 103-104 carry no `#if ENFORCE_SYMMETRIC_RANGE` guard, unlike
uniformGridDiagnostics.cpp lines 53-57 and 364-367), so even in a build
with the toggle disabled the encoded vorticity minimum is `-max(-min,max)`
rather than the computed statistics minimum: for a grid holding one vorton
of vorticity (1,2,3) the computed minimum is (1,2,3) but the encoded range
is `[(-1,-2,-3), (1,2,3)]` and the X footer reads `MIN -1 MAX 1`. -/
theorem vorton_symmetrizes_without_flag :
    vortonVortStats [⟨⟨9, 9, 9⟩, ⟨1, 2, 3⟩⟩] = (⟨1, 2, 3⟩, ⟨1, 2, 3⟩)
    ∧ vortonEncodedVortRange [⟨⟨9, 9, 9⟩, ⟨1, 2, 3⟩⟩] = (⟨-1, -2, -3⟩, ⟨1, 2, 3⟩)
    ∧ (vortonExport [⟨⟨9, 9, 9⟩, ⟨1, 2, 3⟩⟩]).footerX = "MIN -1 MAX 1\n"
    ∧ (⟨-1, -2, -3⟩ : Vec3Q) ≠ ⟨1, 2, 3⟩ := by
  have hs : vortonVortStats [⟨⟨9, 9, 9⟩, ⟨1, 2, 3⟩⟩] = (⟨1, 2, 3⟩, ⟨1, 2, 3⟩) := by
    norm_num [vortonVortStats, vortonStats, vortonStatsStep, fltMax, Prod.ext_iff, Vec3Q.mk.injEq]
  have hr : vortonEncodedVortRange [⟨⟨9, 9, 9⟩, ⟨1, 2, 3⟩⟩] = (⟨-1, -2, -3⟩, ⟨1, 2, 3⟩) := by
    rw [vortonEncodedVortRange, hs]
    norm_num [vec3Extreme, Vec3Q.neg, Prod.ext_iff, Vec3Q.mk.injEq]
  refine ⟨hs, hr, ?_, by decide⟩
  show (vortonExport [⟨⟨9, 9, 9⟩, ⟨1, 2, 3⟩⟩]).footerX = "MIN -1 MAX 1\n"
  simp only [vortonExport]
  rw [hr]
  decide

/-- C3 (amended): for the scalar and Vec3 exporters the symmetric-range
policy is conditional on the `ENFORCE_SYMMETRIC_RANGE` toggle — enabled,
the encoded range becomes `(-max(-min,max), max(-min,max))` componentwise;
disabled, it is the raw statistics range — while the Vorton exporter
applies the replacement unconditionally.  In the test scenario of a scalar
grid holding the values 0..63 exported with symmetric range, the data-file
footer line reads `MIN -63 MAX 63`. -/
theorem symmetric_range_policy (l : List ℚ) (lv : List Vec3Q) (lw : List VortonQ) :
    scalarEncodedRange true l
      = (-(max (-(scalarStats l).1) (scalarStats l).2), max (-(scalarStats l).1) (scalarStats l).2)
    ∧ scalarEncodedRange false l = scalarStats l
    ∧ vec3EncodedRange true lv = ((vec3Extreme (vec3Stats lv)).neg, vec3Extreme (vec3Stats lv))
    ∧ vec3EncodedRange false lv = vec3Stats lv
    ∧ vortonEncodedVortRange lw
      = ((vec3Extreme (vortonVortStats lw)).neg, vec3Extreme (vortonVortStats lw))
    ∧ (scalarExport true ((List.range 64).map (fun n => (n : ℚ)))).footer = "MIN -63 MAX 63\n" := by
  refine ⟨rfl, rfl, rfl, rfl, rfl, ?_⟩
  have hl : (List.range 64).map (fun n => (n : ℚ)) =
      [0, 1, 2, 3, 4, 5, 6, 7, 8, 9, 10, 11, 12, 13, 14, 15,
       16, 17, 18, 19, 20, 21, 22, 23, 24, 25, 26, 27, 28, 29, 30, 31,
       32, 33, 34, 35, 36, 37, 38, 39, 40, 41, 42, 43, 44, 45, 46, 47,
       48, 49, 50, 51, 52, 53, 54, 55, 56, 57, 58, 59, 60, 61, 62, 63] := by
    simp [List.range_succ]
  have hs : scalarEncodedRange true ((List.range 64).map (fun n => (n : ℚ))) = (-63, 63) := by
    rw [hl]
    norm_num [scalarEncodedRange, scalarStats, fltMax, Prod.ext_iff]
  simp only [scalarExport]
  rw [hs]
  decide

/-- C4 counterexample: with the symmetric encoded range `[-63, 63]` a stored
value of 0 quantizes to byte 127, not 128 — `0.5 * 256*(1-FLT_EPSILON)
= 128 - 2^-16` truncates to 127 — and consequently byte < 128 does not
imply the value is negative, refuting the claimed iff (the assertions the
source itself carries at uniformGridDiagnostics.cpp lines 432-434 are also
stated around 127, not 128). -/
theorem symmetric_zero_byte_counterexample :
    vec3CompByte (-63) 63 0 = 127 ∧ ¬(vec3CompByte (-63) 63 0 < 128 ↔ (0 : ℚ) < 0) := by
  have h : vec3CompByte (-63) 63 0 = 127 := by
    norm_num [vec3CompByte, truncQ, fltMin, fAlmost256, fltEpsilon]
  refine ⟨h, ?_⟩
  rw [h]
  decide

/-- C4 (amended): when symmetric-range mode is enabled (per-component
encoded range `[-E, E]` with `2*E ≥ FLT_MIN`), a stored value of 0
quantizes to byte 127 (the code quantizes the midpoint just below 128 and
truncates); the byte is at most 127 when the value is negative and at
least 127 when it is positive, so byte ≤ 126 implies the value is
nonpositive and byte ≥ 128 implies it is nonnegative. -/
theorem symmetric_sign_polarity (E v : ℚ) (hE : fltMin ≤ 2 * E) (h1 : -E ≤ v) (h2 : v ≤ E) :
    (v = 0 → vec3CompByte (-E) E v = 127)
    ∧ (v < 0 → vec3CompByte (-E) E v ≤ 127)
    ∧ (0 < v → 127 ≤ vec3CompByte (-E) E v) := by
  have hEpos : 0 < E := by have := fltMin_pos; linarith
  have hne : E ≠ 0 := hEpos.ne'
  have h2E : E - -E = 2 * E := by ring
  have hR : max (E - -E) fltMin = 2 * E := by rw [h2E]; exact max_eq_left hE
  have hname : ∀ w : ℚ, quantizeByte (-E) E w = truncQ ((w + E) / (2 * E) * fAlmost256) := by
    intro w
    have hw : w - -E = w + E := by ring
    rw [quantizeByte, normalized, hR, hw]
  refine ⟨?_, ?_, ?_⟩
  · intro hv; subst hv
    rw [vec3CompByte_eq_quantizeByte, hname 0]
    have hhalf : (0 + E) / (2 * E) = 1 / 2 := by
      rw [zero_add, div_eq_iff (by positivity)]
      ring
    rw [hhalf, truncQ_of_nonneg (mul_nonneg (by norm_num) fAlmost256_pos.le)]
    norm_num [fAlmost256, fltEpsilon]
  · intro hv
    rw [vec3CompByte_eq_quantizeByte, hname v]
    have hvE : (0 : ℚ) ≤ v + E := by linarith
    have hq0 : 0 ≤ (v + E) / (2 * E) * fAlmost256 :=
      mul_nonneg (div_nonneg hvE (by positivity)) fAlmost256_pos.le
    rw [truncQ_of_nonneg hq0]
    have hhalf : (v + E) / (2 * E) < 1 / 2 := by
      rw [div_lt_iff (by positivity)]
      linarith
    have hlt : (v + E) / (2 * E) * fAlmost256 < 128 := by
      have hd : 0 ≤ (v + E) / (2 * E) := div_nonneg hvE (by positivity)
      nlinarith [fAlmost256_pos, fAlmost256_lt_256]
    have : ⌊(v + E) / (2 * E) * fAlmost256⌋ < (128 : ℤ) := Int.floor_lt.2 (by exact_mod_cast hlt)
    omega
  · intro hv
    rw [vec3CompByte_eq_quantizeByte, hname v]
    have hvE : (0 : ℚ) ≤ v + E := by linarith
    have hq0 : 0 ≤ (v + E) / (2 * E) * fAlmost256 :=
      mul_nonneg (div_nonneg hvE (by positivity)) fAlmost256_pos.le
    rw [truncQ_of_nonneg hq0]
    have hhalf : 1 / 2 < (v + E) / (2 * E) := by
      rw [lt_div_iff (by positivity)]
      linarith
    have h127 : (127 : ℚ) ≤ 1 / 2 * fAlmost256 := by norm_num [fAlmost256, fltEpsilon]
    have hge : (127 : ℚ) ≤ (v + E) / (2 * E) * fAlmost256 := by
      nlinarith [fAlmost256_pos]
    exact Int.le_floor.2 (by exact_mod_cast hge)

/-- Witness for C4 (amended) at the symmetric range `[-63, 63]` and the
value 0. -/
theorem symmetric_sign_polarity_witness :
    (fltMin ≤ 2 * 63 ∧ -(63 : ℚ) ≤ 0 ∧ (0 : ℚ) ≤ 63) ∧
    (((0 : ℚ) = 0 → vec3CompByte (-63) 63 0 = 127)
    ∧ ((0 : ℚ) < 0 → vec3CompByte (-63) 63 0 ≤ 127)
    ∧ (0 < (0 : ℚ) → 127 ≤ vec3CompByte (-63) 63 0)) :=
  ⟨⟨by norm_num [fltMin], by norm_num, by norm_num⟩,
   symmetric_sign_polarity 63 0 (by norm_num [fltMin]) (by norm_num) (by norm_num)⟩

/-- C5: the claim is right for the X/Y/Z component channels — their divisors
are floored at `FLT_MIN` and a zero-range grid quantizes every value to
byte 0 — but the magnitude channel divisor `fMagMax` is used with no floor:
for a grid whose stored values are all the zero vector, `fMagMax = 0` and
the magnitude byte computation divides `0.0f / 0.0f` (NaN in C, violating
the assertion `0 <= iVec[3] <= 255` at uniformGridDiagnostics.cpp line 430;
likewise vortonGridDiagnostics.cpp line 161). -/
theorem magnitude_divisor_unguarded :
    vec3RangeFloored true (List.replicate 8 ⟨0, 0, 0⟩) = ⟨fltMin, fltMin, fltMin⟩
    ∧ vec3RangeFloored false (List.replicate 8 ⟨0, 0, 0⟩) = ⟨fltMin, fltMin, fltMin⟩
    ∧ vec3MagMax (List.replicate 8 ⟨0, 0, 0⟩) = 0
    ∧ vortonMagMax (List.replicate 8 ⟨⟨0, 0, 0⟩, ⟨0, 0, 0⟩⟩) = 0
    ∧ 0 < fltMin
    ∧ (scalarExport false (List.replicate 8 5)).bytes = List.replicate 8 0 := by
  have hstats : vec3Stats (List.replicate 8 ⟨0, 0, 0⟩) = (⟨0, 0, 0⟩, ⟨0, 0, 0⟩) := by
    norm_num [vec3Stats, vec3StatsStep, List.replicate_succ, fltMax, Prod.ext_iff, Vec3Q.mk.injEq]
  have hex : vec3Extreme ((⟨0, 0, 0⟩ : Vec3Q), (⟨0, 0, 0⟩ : Vec3Q)) = ⟨0, 0, 0⟩ := by
    norm_num [vec3Extreme, Vec3Q.mk.injEq]
  have hvstats : vortonVortStats (List.replicate 8 ⟨⟨0, 0, 0⟩, ⟨0, 0, 0⟩⟩)
      = ((⟨0, 0, 0⟩ : Vec3Q), (⟨0, 0, 0⟩ : Vec3Q)) := by
    norm_num [vortonVortStats, vortonStats, vortonStatsStep, List.replicate_succ, fltMax,
      Prod.ext_iff, Vec3Q.mk.injEq]
  have hmag0 : (⟨0, 0, 0⟩ : Vec3Q).mag = 0 := by
    norm_num [Vec3Q.mag, ratSqrt]
  refine ⟨?_, ?_, ?_, ?_, fltMin_pos, ?_⟩
  · rw [vec3RangeFloored, vec3EncodedRange, hstats]
    simp only [if_true]
    rw [hex]
    norm_num [Vec3Q.neg, Vec3Q.mk.injEq, fltMin]
  · rw [vec3RangeFloored, vec3EncodedRange, hstats]
    simp only [Bool.false_eq_true, if_false]
    norm_num [Vec3Q.mk.injEq, fltMin]
  · rw [vec3MagMax, hstats, hex, hmag0]
  · rw [vortonMagMax, hvstats, hex, hmag0]
  · have hs5 : scalarEncodedRange false (List.replicate 8 (5 : ℚ)) = (5, 5) := by
      norm_num [scalarEncodedRange, scalarStats, List.replicate_succ, fltMax, Prod.ext_iff]
    simp only [scalarExport]
    rw [hs5]
    simp [List.map_replicate, quantizeByte_at_min]

lemma idxOfCoord_interior (minC h p : ℚ) (n i : ℕ) (hpos : 0 < h)
    (hi : i + 1 < n) (hl : minC + i * h < p) (hr : p < minC + (i + 1) * h) :
    idxOfCoord minC h n p = i := by
  have hfl : ⌊(p - minC) / h⌋ = (i : ℤ) := by
    rw [Int.floor_eq_iff]
    constructor
    · rw [le_div_iff₀ hpos]
      push_cast
      linarith
    · rw [div_lt_iff₀ hpos]
      push_cast
      linarith
  rw [idxOfCoord, hfl]
  have htn : ((i : ℤ)).toNat = i := Int.toNat_natCast i
  rw [htn]
  exact min_eq_left (by omega)

/-- C6: a position strictly inside cell `(ix, iy, iz)` — strictly between
that cell's minimum corner and the next grid point on every axis — resolves
through `IndicesOfPosition` to exactly `(ix, iy, iz)`, and consequently
`OffsetOfPosition` agrees with `OffsetFromIndices` on that triple. -/
theorem indices_of_interior_position
    (minCorner spacing pos : Vec3Q) (np : ℕ × ℕ × ℕ) (ix iy iz : ℕ)
    (hsx : 0 < spacing.x) (hsy : 0 < spacing.y) (hsz : 0 < spacing.z)
    (hix : ix + 1 < np.1) (hiy : iy + 1 < np.2.1) (hiz : iz + 1 < np.2.2)
    (hx1 : minCorner.x + ix * spacing.x < pos.x)
    (hx2 : pos.x < minCorner.x + (ix + 1) * spacing.x)
    (hy1 : minCorner.y + iy * spacing.y < pos.y)
    (hy2 : pos.y < minCorner.y + (iy + 1) * spacing.y)
    (hz1 : minCorner.z + iz * spacing.z < pos.z)
    (hz2 : pos.z < minCorner.z + (iz + 1) * spacing.z) :
    IndicesOfPosition minCorner spacing np pos = (ix, iy, iz)
    ∧ OffsetOfPosition minCorner spacing np pos = OffsetFromIndices np (ix, iy, iz) := by
  have h1 : IndicesOfPosition minCorner spacing np pos = (ix, iy, iz) := by
    rw [IndicesOfPosition,
      idxOfCoord_interior minCorner.x spacing.x pos.x np.1 ix hsx hix hx1 hx2,
      idxOfCoord_interior minCorner.y spacing.y pos.y np.2.1 iy hsy hiy hy1 hy2,
      idxOfCoord_interior minCorner.z spacing.z pos.z np.2.2 iz hsz hiz hz1 hz2]
  exact ⟨h1, by rw [OffsetOfPosition, h1]⟩

/-- Witness for C6 on a 4x4x4 grid over `[0,3]^3` with unit spacing: the
position (3/2, 5/2, 1/2) lies strictly inside cell (1, 2, 0). -/
theorem indices_of_interior_position_witness :
    IndicesOfPosition ⟨0, 0, 0⟩ ⟨1, 1, 1⟩ (4, 4, 4) ⟨3/2, 5/2, 1/2⟩ = (1, 2, 0)
    ∧ OffsetOfPosition ⟨0, 0, 0⟩ ⟨1, 1, 1⟩ (4, 4, 4) ⟨3/2, 5/2, 1/2⟩
      = OffsetFromIndices (4, 4, 4) (1, 2, 0) :=
  indices_of_interior_position ⟨0, 0, 0⟩ ⟨1, 1, 1⟩ ⟨3/2, 5/2, 1/2⟩ (4, 4, 4) 1 2 0
    (by norm_num) (by norm_num) (by norm_num) (by norm_num) (by norm_num) (by norm_num)
    (by norm_num) (by norm_num) (by norm_num) (by norm_num) (by norm_num) (by norm_num)

/-- C7: the statistics reduction visits the stored elements as one fold and
its result is order-independent — permuting the traversal leaves the
min/max result unchanged; for Vec3 storage each of the six accumulators is
the independent fold of one component starting from `FLT_MAX` resp.
`-FLT_MAX`; and for the composite vorton record the position and vorticity
fields are reduced as two independent 3-vector statistics.  The model is a
pure function of the stored list, mirroring that the source loop only
reads storage. -/
theorem computeStatistics_deterministic (l l' l2 : List Vec3Q) (vl : List VortonQ)
    (h : l.Perm l') :
    vec3Stats l = vec3Stats l'
    ∧ vec3Stats l2 =
        (⟨l2.foldl (fun m v => min m v.x) fltMax,
          l2.foldl (fun m v => min m v.y) fltMax,
          l2.foldl (fun m v => min m v.z) fltMax⟩,
         ⟨l2.foldl (fun m v => max m v.x) (-fltMax),
          l2.foldl (fun m v => max m v.y) (-fltMax),
          l2.foldl (fun m v => max m v.z) (-fltMax)⟩)
    ∧ vortonStats vl =
        (⟨(vec3Stats (vl.map VortonQ.mPosition)).1, (vec3Stats (vl.map VortonQ.mVorticity)).1⟩,
         ⟨(vec3Stats (vl.map VortonQ.mPosition)).2, (vec3Stats (vl.map VortonQ.mVorticity)).2⟩) :=
  ⟨vec3Stats_perm h, by rw [vec3Stats, vec3Fold_components], vortonStats_split vl⟩

/-- Witness for C7 on two-element lists exchanged by a swap. -/
theorem computeStatistics_deterministic_witness :
    (([⟨1, 2, 3⟩, ⟨4, 0, 6⟩] : List Vec3Q).Perm [⟨4, 0, 6⟩, ⟨1, 2, 3⟩])
    ∧ (vec3Stats [⟨1, 2, 3⟩, ⟨4, 0, 6⟩] = vec3Stats [⟨4, 0, 6⟩, ⟨1, 2, 3⟩]
    ∧ vec3Stats [(⟨7, 8, 9⟩ : Vec3Q)] =
        (⟨[(⟨7, 8, 9⟩ : Vec3Q)].foldl (fun m v => min m v.x) fltMax,
          [(⟨7, 8, 9⟩ : Vec3Q)].foldl (fun m v => min m v.y) fltMax,
          [(⟨7, 8, 9⟩ : Vec3Q)].foldl (fun m v => min m v.z) fltMax⟩,
         ⟨[(⟨7, 8, 9⟩ : Vec3Q)].foldl (fun m v => max m v.x) (-fltMax),
          [(⟨7, 8, 9⟩ : Vec3Q)].foldl (fun m v => max m v.y) (-fltMax),
          [(⟨7, 8, 9⟩ : Vec3Q)].foldl (fun m v => max m v.z) (-fltMax)⟩)
    ∧ vortonStats [(⟨⟨1, 1, 1⟩, ⟨2, 2, 2⟩⟩ : VortonQ)] =
        (⟨(vec3Stats ([(⟨⟨1, 1, 1⟩, ⟨2, 2, 2⟩⟩ : VortonQ)].map VortonQ.mPosition)).1,
          (vec3Stats ([(⟨⟨1, 1, 1⟩, ⟨2, 2, 2⟩⟩ : VortonQ)].map VortonQ.mVorticity)).1⟩,
         ⟨(vec3Stats ([(⟨⟨1, 1, 1⟩, ⟨2, 2, 2⟩⟩ : VortonQ)].map VortonQ.mPosition)).2,
          (vec3Stats ([(⟨⟨1, 1, 1⟩, ⟨2, 2, 2⟩⟩ : VortonQ)].map VortonQ.mVorticity)).2⟩)) :=
  ⟨List.Perm.swap (⟨4, 0, 6⟩ : Vec3Q) (⟨1, 2, 3⟩ : Vec3Q) [],
   computeStatistics_deterministic [⟨1, 2, 3⟩, ⟨4, 0, 6⟩] [⟨4, 0, 6⟩, ⟨1, 2, 3⟩]
     [⟨7, 8, 9⟩] [⟨⟨1, 1, 1⟩, ⟨2, 2, 2⟩⟩]
     (List.Perm.swap (⟨4, 0, 6⟩ : Vec3Q) (⟨1, 2, 3⟩ : Vec3Q) [])⟩

/-- C9: the scalar exporter null-checks both of its `fopen` results and
aborts with `ASSERT( 0 ) ; return ;`, but the Vec3 and Vorton exporters
write to the script-file handle without any null check: a failed open of
the `.ogle` script file there is not a locally-detected assert-abort but a
write through a null `FILE*` (undefined behavior), contradicting the
claimed failure mode; only their four data-file opens are checked. -/
theorem script_open_failure_not_checked :
    scalarExportOutcome false true = ExportOutcome.assertAbort
    ∧ scalarExportOutcome true false = ExportOutcome.assertAbort
    ∧ vec3ExportOutcome false (fun _ => true) = ExportOutcome.undefinedBehavior
    ∧ vortonExportOutcome false (fun _ => true) = ExportOutcome.undefinedBehavior
    ∧ vec3ExportOutcome true (fun _ => false) = ExportOutcome.assertAbort
    ∧ vortonExportOutcome true (fun _ => false) = ExportOutcome.assertAbort := by
  refine ⟨rfl, rfl, rfl, rfl, rfl, rfl⟩

/-- C8: for a concrete 2x2x2 grid each exported data stream holds exactly
`nx*ny*nz` bytes, one per grid point in flat offset order, followed by a
footer of the exact form `MIN <g> MAX <g>\x0a` with the pre-quantization
channel range, and the magnitude footer records the range
`[0, approxMaxMagnitude]`; however the source passes the `int` literal `0`
as the first `%g` argument of the magnitude footer
(uniformGridDiagnostics.cpp line 450, vortonGridDiagnostics.cpp line 176),
which is not a floating-point argument and makes that `fprintf` call
undefined behavior, so the recorded `MIN 0` is not actually guaranteed. -/
theorem brick_layout_and_magnitude_footer_args :
    (vec3Export true (List.replicate 8 ⟨3, 4, 0⟩)).bytesX.length = 2 * 2 * 2
    ∧ (vec3Export true (List.replicate 8 ⟨3, 4, 0⟩)).bytesY.length = 2 * 2 * 2
    ∧ (vec3Export true (List.replicate 8 ⟨3, 4, 0⟩)).bytesZ.length = 2 * 2 * 2
    ∧ (vec3Export true (List.replicate 8 ⟨3, 4, 0⟩)).bytesM.length = 2 * 2 * 2
    ∧ (vec3Export true (List.replicate 8 ⟨3, 4, 0⟩)).footerX = "MIN -3 MAX 3\n"
    ∧ vec3MagMax (List.replicate 8 ⟨3, 4, 0⟩) = 5
    ∧ (vec3Export true (List.replicate 8 ⟨3, 4, 0⟩)).footerM = "MIN 0 MAX 5\n"
    ∧ footerArgsWellTyped (componentFooterArgs (-3) 3) = true
    ∧ footerArgsWellTyped (magnitudeFooterArgs 5) = false := by
  have hstats : vec3Stats (List.replicate 8 ⟨3, 4, 0⟩) = (⟨3, 4, 0⟩, ⟨3, 4, 0⟩) := by
    norm_num [vec3Stats, vec3StatsStep, List.replicate_succ, fltMax, Prod.ext_iff, Vec3Q.mk.injEq]
  have hex : vec3Extreme ((⟨3, 4, 0⟩ : Vec3Q), (⟨3, 4, 0⟩ : Vec3Q)) = ⟨3, 4, 0⟩ := by
    norm_num [vec3Extreme, Vec3Q.mk.injEq]
  have hmag : vec3MagMax (List.replicate 8 ⟨3, 4, 0⟩) = 5 := by
    rw [vec3MagMax, hstats, hex]
    rw [show (⟨3, 4, 0⟩ : Vec3Q).mag = ratSqrt 25 by norm_num [Vec3Q.mag]]
    rw [ratSqrt]
    have h25 : Nat.sqrt (Int.toNat 25) = 5 := by
      rw [show Int.toNat 25 = 5 * 5 from rfl]
      exact Nat.sqrt_eq 5
    norm_num [h25]
  have hr : vec3EncodedRange true (List.replicate 8 ⟨3, 4, 0⟩) = (⟨-3, -4, 0⟩, ⟨3, 4, 0⟩) := by
    rw [vec3EncodedRange, hstats]
    simp only [if_true]
    rw [hex]
    norm_num [Vec3Q.neg, Prod.ext_iff, Vec3Q.mk.injEq]
  refine ⟨?_, ?_, ?_, ?_, ?_, hmag, ?_, rfl, rfl⟩
  · simp [vec3Export]
  · simp [vec3Export]
  · simp [vec3Export]
  · simp [vec3Export]
  · simp only [vec3Export]
    rw [hr]
    decide
  · simp only [vec3Export]
    rw [hmag]
    decide

lemma map_vorticity_ext {l1 l2 : List VortonQ}
    (h : l1.map VortonQ.mVorticity = l2.map VortonQ.mVorticity) (f : Vec3Q → ℤ) :
    l1.map (fun w => f w.mVorticity) = l2.map (fun w => f w.mVorticity) := by
  have hc := congrArg (List.map f) h
  simpa [List.map_map, Function.comp] using hc

/-- C10: the Vorton exporter reads only the `mVorticity` field of each
stored vorton — the encoded ranges, all four byte streams and all four
footers are functions of the vorticity list alone — so two grids with the
same per-cell vorticities and arbitrarily different per-cell positions
export identical data-file bytes and footers. -/
theorem vorton_export_position_independent (l1 l2 : List VortonQ)
    (h : l1.map VortonQ.mVorticity = l2.map VortonQ.mVorticity) :
    vortonExport l1 = vortonExport l2 := by
  have hs : vortonVortStats l1 = vortonVortStats l2 := by
    rw [vortonVortStats, vortonVortStats, vortonStats_split, vortonStats_split, h]
  have hr : vortonEncodedVortRange l1 = vortonEncodedVortRange l2 := by
    rw [vortonEncodedVortRange, vortonEncodedVortRange, hs]
  have hm : vortonMagMax l1 = vortonMagMax l2 := by
    rw [vortonMagMax, vortonMagMax, hs]
  simp only [vortonExport]
  rw [hr, hm]
  congr 1
  · exact map_vorticity_ext h
      (fun u => vec3CompByte (vortonEncodedVortRange l2).1.x (vortonEncodedVortRange l2).2.x u.x)
  · exact map_vorticity_ext h
      (fun u => vec3CompByte (vortonEncodedVortRange l2).1.y (vortonEncodedVortRange l2).2.y u.y)
  · exact map_vorticity_ext h
      (fun u => vec3CompByte (vortonEncodedVortRange l2).1.z (vortonEncodedVortRange l2).2.z u.z)
  · exact map_vorticity_ext h (fun u => magByte (vortonMagMax l2) u.mag)

/-- Witness for C10: two single-vorton grids with equal vorticity (4,5,6)
and different positions (1,2,3) versus (7,8,9) yield identical exports. -/
theorem vorton_export_position_independent_witness :
    ([⟨⟨1, 2, 3⟩, ⟨4, 5, 6⟩⟩] : List VortonQ).map VortonQ.mVorticity
      = ([⟨⟨7, 8, 9⟩, ⟨4, 5, 6⟩⟩] : List VortonQ).map VortonQ.mVorticity
    ∧ vortonExport [⟨⟨1, 2, 3⟩, ⟨4, 5, 6⟩⟩] = vortonExport [⟨⟨7, 8, 9⟩, ⟨4, 5, 6⟩⟩] :=
  ⟨rfl, vorton_export_position_independent _ _ rfl⟩
